import Mathlib

/-!
Shallow embedding of the RAG orchestration service core:
the session store (Redis repository), the embedding service, the LLM
service (context assembly, history formatting, generation), the vector
store repository (Qdrant), and the RAG orchestrator (`processQuery`,
`indexDocuments`, `searchSimilarDocuments`) together with the
controller-level bounding of search parameters.

External collaborators (embedding provider, vector store search,
generation provider) are passed in as oracle functions returning
`Except String _`; the repository code that wraps their failures into
the error classes of the application is embedded faithfully.  Machine time
(`new Date()`) is passed explicitly as a `Nat` timestamp, and the
Redis key/value store is an association list from keys to stored
sessions with a TTL.
-/

/-- Message role: the TS union type given as user or assistant. -/
inductive Role where
  | user
  | assistant
deriving DecidableEq, Repr

/-- Rendering of a role as done by role.toUpperCase() in the source. -/
def roleUpper : Role → String
  | Role.user => "USER"
  | Role.assistant => "ASSISTANT"

/-- ChatMessage record from the types module as used throughout src. -/
structure ChatMessage where
  id : String
  role : Role
  content : String
  timestamp : Nat
deriving DecidableEq, Repr

/-- ChatSession record: id, ordered messages, createdAt, updatedAt. -/
structure ChatSession where
  id : String
  messages : List ChatMessage
  createdAt : Nat
  updatedAt : Nat
deriving DecidableEq, Repr

/-- Chunk metadata: source is required, the rest optional. -/
structure ChunkMetadata where
  source : String
  title : Option String
  url : Option String
  timestamp : Option String
deriving DecidableEq, Repr

/-- DocumentChunk with the transient retrieval score. -/
structure DocumentChunk where
  id : String
  content : String
  metadata : ChunkMetadata
  score : Option ℚ
deriving DecidableEq, Repr

/-- A scored point as returned by the vector store client; fields the
wire shape may omit are Options, normalized by the repository. -/
structure QdrantScoredPoint where
  id : String
  score : Option ℚ
  content : Option String
  metadata : Option ChunkMetadata
deriving DecidableEq, Repr

/-- VectorSearchResult produced by QdrantRepository.searchSimilar. -/
structure VectorSearchResult where
  id : String
  score : ℚ
  payload : DocumentChunk
deriving DecidableEq, Repr

/-- ChatResponse returned by RAGService.processQuery. -/
structure ChatResponse where
  message : String
  session_id : String
  message_id : String
  sources : List DocumentChunk
deriving DecidableEq, Repr

/-- The error classes of utils/errors.ts: ValidationError, NotFoundError,
InternalServerError and ExternalServiceError are sibling subclasses of
AppError; a bare JS Error (used as a wrapped cause) is jsError.  The
details argument that may carry the originating error is the Option. -/
inductive AppError where
  | validation (message : String)
  | notFound (message : String)
  | internalServer (message : String) (details : Option AppError)
  | externalService (service : String) (message : String) (details : Option AppError)
  | jsError (message : String)

/-- The HTTP status code each error class sets (AppError.statusCode);
a bare Error is surfaced by the fallback handler as 500. -/
def AppError.statusCode : AppError → Nat
  | AppError.validation _ => 400
  | AppError.notFound _ => 404
  | AppError.internalServer _ _ => 500
  | AppError.externalService _ _ _ => 502
  | AppError.jsError _ => 500

/-- Whether a rejection is an ExternalServiceError (at top level). -/
def rejectsWithExternalService : Except AppError ChatResponse → Bool
  | Except.error (AppError.externalService _ _ _) => true
  | _ => false

/-! ## Redis repository (src/src/repositories/redis.ts) -/

/-- SESSION_TTL = 24 * 60 * 60 seconds. -/
def SESSION_TTL : Nat := 24 * 60 * 60

/-- The Redis store: key to stored session and its remaining TTL. -/
abbrev RedisState := List (String × ChatSession × Nat)

/-- getSessionKey: chat:session:{sessionId} namespacing. -/
def sessionKey (sessionId : String) : String :=
  "chat:session:" ++ sessionId

/-- Redis GET on the association list. -/
def redisGet (k : String) (st : RedisState) : Option (ChatSession × Nat) :=
  match st.find? (fun e => e.1 = k) with
  | none => none
  | some e => some e.2

/-- Remove every binding of a key. -/
def eraseKey (k : String) (st : RedisState) : RedisState :=
  st.filter (fun e => e.1 ≠ k)

/-- Redis SETEX: write the value and reset its TTL. -/
def redisSetex (k : String) (ttl : Nat) (v : ChatSession) (st : RedisState) : RedisState :=
  (k, v, ttl) :: eraseKey k st

/-- How many bindings a key has (what DEL reports for one key). -/
def countKey (k : String) (st : RedisState) : Nat :=
  (st.filter (fun e => e.1 = k)).length

/-- Redis DEL of one key: number removed and the new state. -/
def redisDel (k : String) (st : RedisState) : Nat × RedisState :=
  (countKey k st, eraseKey k st)

/-- Redis EXPIRE: reset the TTL of an existing key, value unchanged. -/
def redisExpire (k : String) (ttl : Nat) (st : RedisState) : RedisState :=
  st.map (fun e => if e.1 = k then (e.1, e.2.1, ttl) else e)

/-- saveSession: SETEX under the own key of the session with SESSION_TTL. -/
def saveSession (session : ChatSession) (st : RedisState) : RedisState :=
  redisSetex (sessionKey session.id) SESSION_TTL session st

/-- getSession: GET and deserialize; absent key gives none. -/
def getSession (sessionId : String) (st : RedisState) : Option ChatSession :=
  match redisGet (sessionKey sessionId) st with
  | none => none
  | some e => some e.1

/-- deleteSession: DEL and report whether anything was removed. -/
def deleteSession (sessionId : String) (st : RedisState) : Bool × RedisState :=
  let r := redisDel (sessionKey sessionId) st
  (decide (0 < r.1), r.2)

/-- addMessageToSession: read-modify-write; synthesize a fresh session
when absent, else push the message and stamp updatedAt, then save. -/
def addMessageToSession (sessionId : String) (message : ChatMessage) (now : Nat)
    (st : RedisState) : RedisState :=
  match getSession sessionId st with
  | none =>
      saveSession { id := sessionId, messages := [message],
                    createdAt := now, updatedAt := now } st
  | some session =>
      saveSession { session with messages := session.messages ++ [message], updatedAt := now } st

/-- extendSessionTTL: EXPIRE with SESSION_TTL; a failure of the
underlying call is caught and logged, never rethrown, so the function
is total and a failing call leaves the state unchanged. -/
def extendSessionTTL (fails : Bool) (sessionId : String) (st : RedisState) : RedisState :=
  if fails then st else redisExpire (sessionKey sessionId) SESSION_TTL st

/-- Well-formed store: every binding keys a session under that
own id of that session, which all repository writes maintain. -/
def WFState (st : RedisState) : Prop :=
  ∀ e ∈ st, e.1 = sessionKey e.2.1.id

instance (st : RedisState) : Decidable (WFState st) := by
  unfold WFState; infer_instance

/-! ## Embedding service (EmbeddingService) -/

/-- JS text.slice(0, n): the first n characters. -/
def jsSliceTo (n : Nat) (s : String) : String :=
  String.mk (s.data.take n)

/-- The request body built by generateEmbeddings: each text truncated
to its first 8192 characters. -/
def embeddingRequest (texts : List String) : List String :=
  texts.map (fun t => jsSliceTo 8192 t)

/-- generateEmbeddings: empty input short-circuits to the empty list;
otherwise the truncated texts are posted to the provider and a
provider failure is wrapped as an ExternalServiceError. -/
def generateEmbeddings (api : List String → Except String (List (List ℚ)))
    (texts : List String) : Except AppError (List (List ℚ)) :=
  if texts.length = 0 then Except.ok []
  else
    match api (embeddingRequest texts) with
    | Except.error msg => Except.error (AppError.externalService "Jina Embeddings API" msg none)
    | Except.ok embs => Except.ok embs

/-- generateSingleEmbedding: embed one text, first vector or []. -/
def generateSingleEmbedding (api : List String → Except String (List (List ℚ)))
    (text : String) : Except AppError (List ℚ) :=
  match generateEmbeddings api [text] with
  | Except.error e => Except.error e
  | Except.ok embs => Except.ok (embs.headD [])

/-- batchEmbeddings with the default batch size 10: embed ten texts at
a time and concatenate the results (the inter-batch delay has no
observable effect on the result). -/
def batchEmbeddings (api : List String → Except String (List (List ℚ)))
    (texts : List String) : Except AppError (List (List ℚ)) :=
  if h : texts.length = 0 then Except.ok []
  else
    match generateEmbeddings api (texts.take 10) with
    | Except.error e => Except.error e
    | Except.ok batch =>
      match batchEmbeddings api (texts.drop 10) with
      | Except.error e => Except.error e
      | Except.ok rest => Except.ok (batch ++ rest)
termination_by texts.length
decreasing_by simp [List.length_drop]; omega

/-! ## LLM service (src/src/services/llm.ts) -/

/-- JS arr.slice(-n): the last n elements (all of them if fewer). -/
def jsSliceLast (n : Nat) (l : List α) : List α :=
  l.drop (l.length - n)

/-- One role-tagged history line: ROLE: content. -/
def histLine (m : ChatMessage) : String :=
  roleUpper m.role ++ ": " ++ m.content

/-- formatChatHistory: placeholder for an empty history, otherwise the
last 10 messages rendered as role-tagged lines joined by newlines. -/
def formatChatHistory (messages : List ChatMessage) : String :=
  if messages.length = 0 then "No previous conversation."
  else String.intercalate "\n" ((jsSliceLast 10 messages).map histLine)

/-- JS a || b on strings: b when a is empty (falsy), else a. -/
def jsOrString (a b : String) : String :=
  if a = "" then b else a

/-- The article label: metadata.title || metadata.source || fallback. -/
def articleSource (md : ChunkMetadata) : String :=
  jsOrString (md.title.getD "") (jsOrString md.source "Unknown Source")

/-- The optional parenthesised URL part of an article header. -/
def articleUrlPart (md : ChunkMetadata) : String :=
  match md.url with
  | none => ""
  | some u => if u = "" then "" else " (" ++ u ++ ")"

/-- The optional timestamp part of an article header. -/
def articleTimestampPart (md : ChunkMetadata) : String :=
  match md.timestamp with
  | none => ""
  | some t => if t = "" then "" else " - " ++ t

/-- The rendering of one retrieved chunk as Article (index+1). -/
def articleEntry (index : Nat) (chunk : DocumentChunk) : String :=
  "\nArticle " ++ toString (index + 1) ++ ": " ++ articleSource chunk.metadata
    ++ articleUrlPart chunk.metadata ++ articleTimestampPart chunk.metadata
    ++ "\nContent: " ++ chunk.content ++ "\n---"

/-- chunks.map((chunk, index) => articleEntry index chunk), with the
running index made explicit. -/
def contextEntriesAux (i : Nat) : List DocumentChunk → List String
  | [] => []
  | c :: cs => articleEntry i c :: contextEntriesAux (i + 1) cs

/-- The entry list buildContext joins together for nonempty input. -/
def contextEntries (chunks : List DocumentChunk) : List String :=
  contextEntriesAux 0 chunks

/-- buildContext: the sentinel for zero chunks, otherwise the labeled
article renderings joined by newlines, in input order. -/
def buildContext (chunks : List DocumentChunk) : String :=
  if chunks.length = 0 then "No relevant articles found for this query."
  else String.intercalate "\n" (contextEntries chunks)

/-- JS text.trim(): strip whitespace from both ends (structural, on
the character list). -/
def jsTrim (s : String) : String :=
  String.mk (((s.data.dropWhile Char.isWhitespace).reverse.dropWhile
    Char.isWhitespace).reverse)

/-- The full grounding prompt assembled by generateResponse. -/
def buildPrompt (userQuery : String) (chunks : List DocumentChunk)
    (history : List ChatMessage) : String :=
  "You are an intelligent assistant that answers questions based on provided news articles context. \n\nINSTRUCTIONS:\n1. Use ONLY the information provided in the context to answer questions\n2. If the context doesn\x27t contain enough information, clearly state what\x27s missing\n3. Provide accurate, concise, and helpful responses\n4. Cite sources when possible by mentioning the article titles or sources\n5. If asked about current events, remind users that information is based on the provided articles\n6. Be conversational but professional\n7. If no relevant information is found, politely explain this limitation\n\nCONTEXT:\n"
    ++ buildContext chunks
    ++ "\n\nCONVERSATION HISTORY:\n"
    ++ formatChatHistory history
    ++ "\n\nUSER QUESTION: " ++ userQuery
    ++ "\n\nPlease provide a helpful response based on the context provided."

/-- generateResponse: send the prompt to the generation provider; any
thrown error is wrapped as ExternalServiceError for Gemini, and an
empty or all-whitespace completion is itself turned into such an
error; a good completion is returned trimmed. -/
def generateResponse (genApi : String → Except String String) (userQuery : String)
    (retrievedChunks : List DocumentChunk) (chatHistory : List ChatMessage) :
    Except AppError String :=
  match genApi (buildPrompt userQuery retrievedChunks chatHistory) with
  | Except.error msg =>
      Except.error (AppError.externalService "Gemini API" msg (some (AppError.jsError msg)))
  | Except.ok text =>
      if (jsTrim text).length = 0 then
        Except.error (AppError.externalService "Gemini API" "Empty response from Gemini API"
          (some (AppError.jsError "Empty response from Gemini API")))
      else Except.ok (jsTrim text)

/-! ## Qdrant repository (QdrantRepository) -/

/-- Normalization of a wire point into a VectorSearchResult: missing
score becomes 0, missing content the empty string, missing metadata
the unknown source. -/
def normalizePoint (p : QdrantScoredPoint) : VectorSearchResult :=
  { id := p.id
    score := p.score.getD 0
    payload :=
      { id := p.id
        content := p.content.getD ""
        metadata := p.metadata.getD { source := "unknown", title := none,
                                      url := none, timestamp := none }
        score := none } }

/-- searchSimilar: query the vector store client and normalize each
returned point; a client failure is wrapped as an
InternalServerError over the thrown error. -/
def searchSimilar (searchApi : List ℚ → ℚ → ℚ → Except String (List QdrantScoredPoint))
    (queryEmbedding : List ℚ) (limit threshold : ℚ) :
    Except AppError (List VectorSearchResult) :=
  match searchApi queryEmbedding limit threshold with
  | Except.error msg =>
      Except.error (AppError.internalServer "Failed to search vector database"
        (some (AppError.jsError msg)))
  | Except.ok points => Except.ok (points.map normalizePoint)

/-- A stored vector-store point. -/
structure QdrantPoint where
  id : String
  vector : List ℚ
  payloadContent : String
  payloadMetadata : ChunkMetadata
deriving DecidableEq, Repr

/-- The point built for one document and its embedding. -/
def mkPoint (doc : DocumentChunk) (emb : List ℚ) : QdrantPoint :=
  { id := doc.id, vector := emb, payloadContent := doc.content,
    payloadMetadata := doc.metadata }

/-- Upsert by id: each new point replaces any stored point of its id. -/
def upsertPoints (store : List QdrantPoint) (points : List QdrantPoint) : List QdrantPoint :=
  points.foldl (fun acc p => acc.filter (fun q => q.id ≠ p.id) ++ [p]) store

/-- upsertDocuments: reject a document/embedding length mismatch (the
thrown Error is wrapped by the catch into an InternalServerError)
before any upsert reaches the store; otherwise upsert all points. -/
def upsertDocuments (documents : List DocumentChunk) (embeddings : List (List ℚ))
    (store : List QdrantPoint) : Except AppError (List QdrantPoint) :=
  if documents.length ≠ embeddings.length then
    Except.error (AppError.internalServer "Failed to store documents in vector database"
      (some (AppError.jsError "Documents and embeddings arrays must have the same length")))
  else Except.ok (upsertPoints store (documents.zipWith mkPoint embeddings))

/-! ## RAG orchestrator (RAGService) and controller boundary -/

/-- The session?.messages || [] idiom. -/
def messagesOrEmpty (session : Option ChatSession) : List ChatMessage :=
  match session with
  | none => []
  | some s => s.messages

/-- getChatHistory: the messages of the session, or [] when absent. -/
def getChatHistory (sessionId : String) (st : RedisState) : List ChatMessage :=
  messagesOrEmpty (getSession sessionId st)

/-- processQuery: append the user message, fetch history, embed the
query, search the vector store, generate a grounded answer from the
last 10 history messages, append the assistant message, refresh the
TTL best-effort, and return the response; any failure after the user
append aborts with an InternalServerError wrapping the cause, leaving
the state as already mutated.  Fresh uuids and clock readings are
explicit arguments. -/
def processQuery (embedApi : List String → Except String (List (List ℚ)))
    (searchApi : List ℚ → ℚ → ℚ → Except String (List QdrantScoredPoint))
    (genApi : String → Except String String) (ttlFails : Bool)
    (sessionId userMessage : String) (retrievalLimit similarityThreshold : ℚ)
    (userMessageId assistantMessageId : String) (now nowA : Nat)
    (st : RedisState) : Except AppError ChatResponse × RedisState :=
  let userChatMessage : ChatMessage :=
    { id := userMessageId, role := Role.user, content := userMessage, timestamp := now }
  let st1 := addMessageToSession sessionId userChatMessage now st
  let chatHistory := messagesOrEmpty (getSession sessionId st1)
  match generateSingleEmbedding embedApi userMessage with
  | Except.error e =>
      (Except.error (AppError.internalServer "Failed to process chat query" (some e)), st1)
  | Except.ok queryEmbedding =>
    match searchSimilar searchApi queryEmbedding retrievalLimit similarityThreshold with
    | Except.error e =>
        (Except.error (AppError.internalServer "Failed to process chat query" (some e)), st1)
    | Except.ok searchResults =>
      let retrievedChunks := searchResults.map (fun r => { r.payload with score := some r.score })
      match generateResponse genApi userMessage retrievedChunks (jsSliceLast 10 chatHistory) with
      | Except.error e =>
          (Except.error (AppError.internalServer "Failed to process chat query" (some e)), st1)
      | Except.ok responseText =>
        let assistantMessage : ChatMessage :=
          { id := assistantMessageId, role := Role.assistant, content := responseText,
            timestamp := nowA }
        let st2 := addMessageToSession sessionId assistantMessage nowA st1
        let st3 := extendSessionTTL ttlFails sessionId st2
        (Except.ok { message := responseText, session_id := sessionId,
                     message_id := assistantMessageId, sources := retrievedChunks }, st3)

/-- indexDocuments: nothing to do for no documents; otherwise batch
embed all contents and upsert, wrapping any failure. -/
def indexDocuments (embedApi : List String → Except String (List (List ℚ)))
    (documents : List DocumentChunk) (store : List QdrantPoint) :
    Except AppError Unit × List QdrantPoint :=
  if documents.length = 0 then (Except.ok (), store)
  else
    match batchEmbeddings embedApi (documents.map (fun d => d.content)) with
    | Except.error e =>
        (Except.error (AppError.internalServer "Failed to index documents" (some e)), store)
    | Except.ok embeddings =>
      match upsertDocuments documents embeddings store with
      | Except.error e =>
          (Except.error (AppError.internalServer "Failed to index documents" (some e)), store)
      | Except.ok store2 => (Except.ok (), store2)

/-- searchSimilarDocuments: embed the query and search, wrapping any
failure as an InternalServerError. -/
def searchSimilarDocuments (embedApi : List String → Except String (List (List ℚ)))
    (searchApi : List ℚ → ℚ → ℚ → Except String (List QdrantScoredPoint))
    (query : String) (limit threshold : ℚ) : Except AppError (List VectorSearchResult) :=
  match generateSingleEmbedding embedApi query with
  | Except.error e =>
      Except.error (AppError.internalServer "Failed to search documents" (some e))
  | Except.ok v =>
    match searchSimilar searchApi v limit threshold with
    | Except.error e =>
        Except.error (AppError.internalServer "Failed to search documents" (some e))
    | Except.ok rs => Except.ok rs

/-- The bounding applied by ChatController.searchDocuments before it
calls the service: Math.min(limit, 20) and Math.max(threshold, 0.3). -/
def boundedSearchArgs (limit threshold : ℚ) : ℚ × ℚ :=
  (min limit 20, max threshold (3 / 10))

/-- ChatController.searchDocuments after validation: the service is
called with the bounded limit and threshold. -/
def searchDocumentsEndpoint (embedApi : List String → Except String (List (List ℚ)))
    (searchApi : List ℚ → ℚ → ℚ → Except String (List QdrantScoredPoint))
    (query : String) (limit threshold : ℚ) : Except AppError (List VectorSearchResult) :=
  searchSimilarDocuments embedApi searchApi query
    (boundedSearchArgs limit threshold).1 (boundedSearchArgs limit threshold).2

/-- The updatedAt stamp the store currently holds for a session (0 when
the session is absent). -/
def sessionUpdatedAt (sessionId : String) (st : RedisState) : Nat :=
  match getSession sessionId st with
  | none => 0
  | some s => s.updatedAt

/-- Discriminator for the user-facing ValidationError class. -/
def isValidationError : AppError → Bool
  | AppError.validation _ => true
  | _ => false

/-! ## Helper lemmas about the session store -/

lemma redisGet_cons (e : String × ChatSession × Nat) (t : RedisState) (k : String) :
    redisGet k (e :: t) = if e.1 = k then some e.2 else redisGet k t := by
  by_cases h : e.1 = k
  · simp [redisGet, List.find?, h]
  · simp [redisGet, List.find?, h]

lemma eraseKey_cons (e : String × ChatSession × Nat) (t : RedisState) (k : String) :
    eraseKey k (e :: t) = if e.1 = k then eraseKey k t else e :: eraseKey k t := by
  by_cases h : e.1 = k
  · simp [eraseKey, List.filter, h]
  · simp [eraseKey, List.filter, h]

lemma countKey_cons (e : String × ChatSession × Nat) (t : RedisState) (k : String) :
    countKey k (e :: t) = if e.1 = k then countKey k t + 1 else countKey k t := by
  by_cases h : e.1 = k
  · simp [countKey, List.filter, h]
  · simp [countKey, List.filter, h]

lemma redisGet_eraseKey (k : String) (st : RedisState) :
    redisGet k (eraseKey k st) = none := by
  induction st with
  | nil => rfl
  | cons e t ih =>
    rw [eraseKey_cons]
    by_cases h : e.1 = k
    · simp [h, ih]
    · simp [h, redisGet_cons, ih]

lemma countKey_eraseKey (k : String) (st : RedisState) :
    countKey k (eraseKey k st) = 0 := by
  induction st with
  | nil => rfl
  | cons e t ih =>
    rw [eraseKey_cons]
    by_cases h : e.1 = k
    · simp [h, ih]
    · simp [h, countKey_cons, ih]

lemma redisGet_isSome_iff_countKey (k : String) (st : RedisState) :
    (redisGet k st).isSome = true ↔ 0 < countKey k st := by
  induction st with
  | nil => simp [redisGet, countKey]
  | cons e t ih =>
    rw [redisGet_cons, countKey_cons]
    by_cases h : e.1 = k
    · simp [h]
    · simp [h, ih]

lemma sessionKey_inj {a b : String} (h : sessionKey a = sessionKey b) : a = b := by
  unfold sessionKey at h
  have hd : ("chat:session:" ++ a).data = ("chat:session:" ++ b).data := by rw [h]
  simp [String.data_append] at hd
  cases a
  cases b
  exact congrArg String.mk hd

lemma redisGet_saveSession (s : ChatSession) (st : RedisState) :
    redisGet (sessionKey s.id) (saveSession s st) = some (s, SESSION_TTL) := by
  simp [saveSession, redisSetex, redisGet_cons]

lemma getSession_saveSession (s : ChatSession) (st : RedisState) :
    getSession s.id (saveSession s st) = some s := by
  simp [getSession, redisGet_saveSession]

lemma getSession_saveSession_of_id (s : ChatSession) (st : RedisState) (sessionId : String)
    (hid : s.id = sessionId) : getSession sessionId (saveSession s st) = some s := by
  subst hid
  exact getSession_saveSession s st

lemma redisGet_saveSession_of_id (s : ChatSession) (st : RedisState) (sessionId : String)
    (hid : s.id = sessionId) :
    redisGet (sessionKey sessionId) (saveSession s st) = some (s, SESSION_TTL) := by
  subst hid
  exact redisGet_saveSession s st

lemma getSession_mem {sessionId : String} {st : RedisState} {s : ChatSession}
    (h : getSession sessionId st = some s) :
    ∃ ttl, (sessionKey sessionId, s, ttl) ∈ st := by
  unfold getSession redisGet at h
  cases hf : st.find? (fun e => e.1 = sessionKey sessionId) with
  | none => rw [hf] at h; exact absurd h (by simp)
  | some e =>
    rw [hf] at h
    have hkey : e.1 = sessionKey sessionId := by
      have := List.find?_some hf
      simpa using this
    have hmem : e ∈ st := List.mem_of_find?_eq_some hf
    have hs : e.2.1 = s := by
      simp at h
      rw [← h]
    refine ⟨e.2.2, ?_⟩
    have : e = (sessionKey sessionId, s, e.2.2) := by
      rw [← hkey, ← hs]
    rw [← this]
    exact hmem

lemma getSession_wf_id {sessionId : String} {st : RedisState} {s : ChatSession}
    (hwf : WFState st) (h : getSession sessionId st = some s) : s.id = sessionId := by
  obtain ⟨ttl, hmem⟩ := getSession_mem h
  have := hwf _ hmem
  simp at this
  exact (sessionKey_inj this.symm)

lemma WFState_saveSession {st : RedisState} (hwf : WFState st) (s : ChatSession) :
    WFState (saveSession s st) := by
  intro e he
  simp [saveSession, redisSetex] at he
  rcases he with he | he
  · rw [he]
  · exact hwf _ (List.mem_of_mem_filter he)

lemma WFState_addMessage {st : RedisState} (hwf : WFState st) (sessionId : String)
    (message : ChatMessage) (now : Nat) :
    WFState (addMessageToSession sessionId message now st) := by
  unfold addMessageToSession
  cases h : getSession sessionId st with
  | none => exact WFState_saveSession hwf _
  | some session => exact WFState_saveSession hwf _

lemma getSession_cons (e : String × ChatSession × Nat) (t : RedisState) (sessionId : String) :
    getSession sessionId (e :: t)
      = if e.1 = sessionKey sessionId then some e.2.1 else getSession sessionId t := by
  unfold getSession
  rw [redisGet_cons]
  by_cases h : e.1 = sessionKey sessionId <;> simp [h]

lemma getSession_redisExpire (sessionId k : String) (ttl : Nat) (st : RedisState) :
    getSession sessionId (redisExpire k ttl st) = getSession sessionId st := by
  induction st with
  | nil => rfl
  | cons e t ih =>
    have hmap : redisExpire k ttl (e :: t)
        = (if e.1 = k then (e.1, e.2.1, ttl) else e) :: redisExpire k ttl t := by
      simp [redisExpire]
    rw [hmap, getSession_cons, getSession_cons]
    have he : (if e.1 = k then (e.1, e.2.1, ttl) else e).1 = e.1 := by
      by_cases hk : e.1 = k <;> simp [hk]
    have he2 : (if e.1 = k then (e.1, e.2.1, ttl) else e).2.1 = e.2.1 := by
      by_cases hk : e.1 = k <;> simp [hk]
    rw [he, he2]
    by_cases hq : e.1 = sessionKey sessionId
    · simp [hq]
    · simp [hq, ih]

lemma getSession_extendTTL (fails : Bool) (sid sessionId : String) (st : RedisState) :
    getSession sessionId (extendSessionTTL fails sid st) = getSession sessionId st := by
  unfold extendSessionTTL
  cases fails with
  | true => simp
  | false => simp [getSession_redisExpire]

lemma addMessage_lookup {st : RedisState} (hwf : WFState st) (sessionId : String)
    (m : ChatMessage) (now : Nat) :
    ∃ s', getSession sessionId (addMessageToSession sessionId m now st) = some s'
      ∧ s'.id = sessionId
      ∧ s'.messages = getChatHistory sessionId st ++ [m]
      ∧ s'.updatedAt = now
      ∧ redisGet (sessionKey sessionId) (addMessageToSession sessionId m now st)
          = some (s', SESSION_TTL) := by
  unfold addMessageToSession
  cases h : getSession sessionId st with
  | none =>
    refine ⟨_, getSession_saveSession ⟨sessionId, [m], now, now⟩ st, rfl, ?_, rfl,
      redisGet_saveSession _ st⟩
    simp [getChatHistory, messagesOrEmpty, h]
  | some prev =>
    have hid : prev.id = sessionId := getSession_wf_id hwf h
    exact ⟨{ prev with messages := prev.messages ++ [m], updatedAt := now },
      getSession_saveSession_of_id _ st sessionId hid, hid,
      by simp [getChatHistory, messagesOrEmpty, h], rfl,
      redisGet_saveSession_of_id _ st sessionId hid⟩

lemma getChatHistory_addMessage {st : RedisState} (hwf : WFState st) (sessionId : String)
    (m : ChatMessage) (now : Nat) :
    getChatHistory sessionId (addMessageToSession sessionId m now st)
      = getChatHistory sessionId st ++ [m] := by
  obtain ⟨s', hg, _, hm, _, _⟩ := addMessage_lookup hwf sessionId m now
  simp [getChatHistory, messagesOrEmpty, hg]
  simpa [getChatHistory] using hm

lemma getSession_isSome (sessionId : String) (st : RedisState) :
    (getSession sessionId st).isSome = (redisGet (sessionKey sessionId) st).isSome := by
  unfold getSession
  cases redisGet (sessionKey sessionId) st <;> simp

lemma getSession_eraseKey (sessionId : String) (st : RedisState) :
    getSession sessionId (eraseKey (sessionKey sessionId) st) = none := by
  unfold getSession
  rw [redisGet_eraseKey]

/-! ## Shared sample data for witnesses -/

def msgU : ChatMessage :=
  { id := "u1", role := Role.user, content := "What is AI?", timestamp := 7 }

def msgA : ChatMessage :=
  { id := "a1", role := Role.assistant, content := "AI is...", timestamp := 8 }

def sessionS1 : ChatSession :=
  { id := "s1", messages := [msgU], createdAt := 5, updatedAt := 7 }

def stateS1 : RedisState := [(sessionKey "s1", sessionS1, 3600)]

def sampleMetadata : ChunkMetadata :=
  { source := "TechCrunch", title := some "AI Today",
    url := some "https://example.com/ai", timestamp := some "2024-01-01" }

def sampleChunk : DocumentChunk :=
  { id := "d1", content := "AI is a field of computer science.",
    metadata := sampleMetadata, score := some (9 / 10) }

def stubEmbedOk : List String → Except String (List (List ℚ)) :=
  fun ts => Except.ok (ts.map (fun _ => [1]))

def stubEmbedNone : List String → Except String (List (List ℚ)) :=
  fun _ => Except.ok []

def stubSearchEmpty : List ℚ → ℚ → ℚ → Except String (List QdrantScoredPoint) :=
  fun _ _ _ => Except.ok []

def stubGenEmpty : String → Except String String :=
  fun _ => Except.ok ""

def stubGenFail : String → Except String String :=
  fun _ => Except.error "model unavailable"

/-! ## Claim theorems -/

/-- C3: append followed by get returns a present session whose message
sequence ends with the appended message and whose updatedAt is at
least the previous value (the clock reading used for the stamp being
at least that value); an absent session becomes a new session holding
exactly that one message (its history was empty); and the session is
written back with its TTL reset to the fixed 24-hour window. -/
theorem addMessageToSession_getSession_spec (st : RedisState) (sessionId : String)
    (msg : ChatMessage) (now : Nat)
    (hwf : WFState st) (hclock : sessionUpdatedAt sessionId st ≤ now) :
    ∃ s', getSession sessionId (addMessageToSession sessionId msg now st) = some s'
      ∧ s'.messages = getChatHistory sessionId st ++ [msg]
      ∧ s'.messages.getLast? = some msg
      ∧ sessionUpdatedAt sessionId st ≤ s'.updatedAt
      ∧ s'.updatedAt = now
      ∧ redisGet (sessionKey sessionId) (addMessageToSession sessionId msg now st)
          = some (s', SESSION_TTL)
      ∧ SESSION_TTL = 24 * 60 * 60 := by
  obtain ⟨s', hg, _, hm, hu, hr⟩ := addMessage_lookup hwf sessionId msg now
  refine ⟨s', hg, hm, ?_, ?_, hu, hr, rfl⟩
  · rw [hm]
    exact List.getLast?_concat _
  · rw [hu]
    exact hclock

/-- Witness for C3 at a concrete existing session and a concrete
append. -/
theorem addMessageToSession_getSession_spec_witness :
    WFState stateS1 ∧ sessionUpdatedAt "s1" stateS1 ≤ 9
    ∧ (∃ s', getSession "s1" (addMessageToSession "s1" msgA 9 stateS1) = some s'
        ∧ s'.messages = getChatHistory "s1" stateS1 ++ [msgA]
        ∧ s'.messages.getLast? = some msgA
        ∧ sessionUpdatedAt "s1" stateS1 ≤ s'.updatedAt
        ∧ s'.updatedAt = 9
        ∧ redisGet (sessionKey "s1") (addMessageToSession "s1" msgA 9 stateS1)
            = some (s', SESSION_TTL)
        ∧ SESSION_TTL = 24 * 60 * 60) :=
  ⟨by decide, by decide,
    addMessageToSession_getSession_spec stateS1 "s1" msgA 9 (by decide) (by decide)⟩

/-- C9: delete reports true exactly when the session existed at the
time of the call; afterwards the session is absent and a repeated
delete reports false. -/
theorem deleteSession_spec (st : RedisState) (sessionId : String) :
    ((deleteSession sessionId st).1 = true ↔ (getSession sessionId st).isSome = true)
    ∧ getSession sessionId (deleteSession sessionId st).2 = none
    ∧ (deleteSession sessionId (deleteSession sessionId st).2).1 = false := by
  refine ⟨?_, ?_, ?_⟩
  · simp [deleteSession, redisDel, getSession_isSome, redisGet_isSome_iff_countKey]
  · simp [deleteSession, redisDel, getSession_eraseKey]
  · simp [deleteSession, redisDel, countKey_eraseKey]

/-- Witness for C9 at a concrete one-session store. -/
theorem deleteSession_spec_witness :
    (((deleteSession "s1" stateS1).1 = true ↔ (getSession "s1" stateS1).isSome = true)
    ∧ getSession "s1" (deleteSession "s1" stateS1).2 = none
    ∧ (deleteSession "s1" (deleteSession "s1" stateS1).2).1 = false)
    ∧ (deleteSession "s1" stateS1).1 = true :=
  ⟨deleteSession_spec stateS1 "s1", by decide⟩

/-! ## Helper lemmas for context assembly and history windowing -/

lemma contextEntriesAux_length (i : Nat) (l : List DocumentChunk) :
    (contextEntriesAux i l).length = l.length := by
  induction l generalizing i with
  | nil => rfl
  | cons c cs ih => simp [contextEntriesAux, ih]

lemma contextEntriesAux_get? (l : List DocumentChunk) (i j : Nat) :
    (contextEntriesAux i l).get? j = (l.get? j).map (fun c => articleEntry (i + j) c) := by
  induction l generalizing i j with
  | nil => simp [contextEntriesAux]
  | cons c cs ih =>
    cases j with
    | zero => simp [contextEntriesAux]
    | succ j2 =>
      have harith : i + 1 + j2 = i + (j2 + 1) := by omega
      simp only [contextEntriesAux, List.get?_cons_succ]
      rw [ih (i + 1) j2, harith]

lemma jsSliceLast_length_le (n : Nat) (l : List α) : (jsSliceLast n l).length ≤ n := by
  simp [jsSliceLast]
  omega

lemma jsSliceLast_suffix (n : Nat) (l : List α) : List.IsSuffix (jsSliceLast n l) l :=
  List.drop_suffix _ _

lemma jsSliceLast_of_le {n : Nat} {l : List α} (h : l.length ≤ n) : jsSliceLast n l = l := by
  unfold jsSliceLast
  have hz : l.length - n = 0 := by omega
  rw [hz, List.drop_zero]

lemma jsSliceLast_ne_nil {n : Nat} {l : List α} (hn : 0 < n) (h : l ≠ []) :
    jsSliceLast n l ≠ [] := by
  unfold jsSliceLast
  intro hc
  have hl : 0 < l.length := List.length_pos.mpr h
  have := congrArg List.length hc
  simp [List.length_drop] at this
  omega

lemma jsSliceTo_length_le (n : Nat) (s : String) : (jsSliceTo n s).length ≤ n := by
  show (s.data.take n).length ≤ n
  rw [List.length_take]
  exact min_le_left _ _

/-- C5: context assembly is a function of the ordered chunk sequence;
for no chunks it is the non-empty sentinel text, and for n chunks it
joins one labeled article rendering per chunk, the i-th entry being
the rendering of the i-th chunk under index i (displayed as i+1), in
input order. -/
theorem buildContext_spec (chunks : List DocumentChunk) (i : Nat) (hne : chunks ≠ []) :
    buildContext [] = "No relevant articles found for this query."
    ∧ buildContext [] ≠ ""
    ∧ (contextEntries chunks).length = chunks.length
    ∧ (contextEntries chunks).get? i = (chunks.get? i).map (fun c => articleEntry i c)
    ∧ buildContext chunks = String.intercalate "\n" (contextEntries chunks) := by
  refine ⟨rfl, by decide, contextEntriesAux_length 0 chunks, ?_, ?_⟩
  · have := contextEntriesAux_get? chunks 0 i
    simpa [contextEntries] using this
  · have hz : ¬chunks.length = 0 := by simpa [List.length_eq_zero] using hne
    unfold buildContext
    rw [if_neg hz]

/-- Witness for C5 at one concrete chunk and index 0. -/
theorem buildContext_spec_witness :
    ([sampleChunk] : List DocumentChunk) ≠ []
    ∧ (buildContext [] = "No relevant articles found for this query."
      ∧ buildContext [] ≠ ""
      ∧ (contextEntries [sampleChunk]).length = ([sampleChunk] : List DocumentChunk).length
      ∧ (contextEntries [sampleChunk]).get? 0
          = (([sampleChunk] : List DocumentChunk).get? 0).map (fun c => articleEntry 0 c)
      ∧ buildContext [sampleChunk] = String.intercalate "\n" (contextEntries [sampleChunk])) :=
  ⟨by decide, buildContext_spec [sampleChunk] 0 (by decide)⟩

/-- C8: the history window passed to the generation prompt is the last
10 messages: it never exceeds 10 messages, is a suffix of the history
(hence oldest first, in order), is the whole history when that has at
most 10 messages, and formatChatHistory renders exactly its
role-tagged lines joined by newlines. -/
theorem historyWindow_spec (msgs small : List ChatMessage)
    (hsmall : small.length ≤ 10) (hne : msgs ≠ []) :
    (jsSliceLast 10 msgs).length ≤ 10
    ∧ List.IsSuffix (jsSliceLast 10 msgs) msgs
    ∧ jsSliceLast 10 small = small
    ∧ formatChatHistory (jsSliceLast 10 msgs)
        = String.intercalate "\n" ((jsSliceLast 10 msgs).map histLine) := by
  refine ⟨jsSliceLast_length_le _ _, jsSliceLast_suffix _ _, jsSliceLast_of_le hsmall, ?_⟩
  have h1 : jsSliceLast 10 msgs ≠ [] := jsSliceLast_ne_nil (by omega) hne
  have hz : ¬(jsSliceLast 10 msgs).length = 0 := by
    simpa [List.length_eq_zero] using h1
  unfold formatChatHistory
  rw [if_neg hz, jsSliceLast_of_le (jsSliceLast_length_le 10 msgs)]

/-- Witness for C8 at a concrete one-message history. -/
theorem historyWindow_spec_witness :
    ([msgU] : List ChatMessage).length ≤ 10 ∧ ([msgU] : List ChatMessage) ≠ []
    ∧ ((jsSliceLast 10 [msgU]).length ≤ 10
      ∧ List.IsSuffix (jsSliceLast 10 [msgU]) [msgU]
      ∧ jsSliceLast 10 [msgU] = [msgU]
      ∧ formatChatHistory (jsSliceLast 10 [msgU])
          = String.intercalate "\n" ((jsSliceLast 10 [msgU]).map histLine)) :=
  ⟨by decide, by decide, historyWindow_spec [msgU] [msgU] (by decide) (by decide)⟩

/-- C10: generateEmbeddings truncates every text of the request to at
most its first 8192 characters (silently: a provider-accepted request
yields success, with one request entry per input text), and for the
empty input it returns the empty list without consulting the provider
(the result is the same for every provider function). -/
theorem generateEmbeddings_spec
    (api api₁ api₂ : List String → Except String (List (List ℚ)))
    (texts : List String) (t : String) (r : List (List ℚ))
    (hmem : t ∈ embeddingRequest texts)
    (hne : texts ≠ [])
    (hok : api (embeddingRequest texts) = Except.ok r)
    (hagree : api₁ (embeddingRequest texts) = api₂ (embeddingRequest texts)) :
    generateEmbeddings api₁ [] = Except.ok []
    ∧ t.length ≤ 8192
    ∧ (embeddingRequest texts).length = texts.length
    ∧ generateEmbeddings api texts = Except.ok r
    ∧ generateEmbeddings api₁ texts = generateEmbeddings api₂ texts := by
  refine ⟨rfl, ?_, by simp [embeddingRequest], ?_, ?_⟩
  · obtain ⟨orig, _, ht⟩ := List.mem_map.mp hmem
    rw [← ht]
    exact jsSliceTo_length_le _ _
  · unfold generateEmbeddings
    rw [if_neg (by simpa [List.length_eq_zero] using hne), hok]
  · unfold generateEmbeddings
    by_cases hz : texts.length = 0
    · rw [if_pos hz, if_pos hz]
    · rw [if_neg hz, if_neg hz, hagree]

/-- Witness for C10: a two-character text is passed through untouched
and the provider reply is returned as is. -/
theorem generateEmbeddings_spec_witness :
    "ab" ∈ embeddingRequest ["ab"] ∧ (["ab"] : List String) ≠ []
    ∧ stubEmbedOk (embeddingRequest ["ab"]) = Except.ok [[1]]
    ∧ (generateEmbeddings stubEmbedOk [] = Except.ok []
      ∧ "ab".length ≤ 8192
      ∧ (embeddingRequest ["ab"]).length = (["ab"] : List String).length
      ∧ generateEmbeddings stubEmbedOk ["ab"] = Except.ok [[1]]
      ∧ generateEmbeddings stubEmbedOk ["ab"] = generateEmbeddings stubEmbedOk ["ab"]) :=
  ⟨by decide, by decide, rfl,
    generateEmbeddings_spec stubEmbedOk stubEmbedOk stubEmbedOk ["ab"] "ab" [[1]]
      (by decide) (by decide) rfl rfl⟩

/-- C6: what the search endpoint passes to the vector store search is
bounded at the controller boundary: the limit is capped at 20, the
threshold floored at 0.3, and the endpoint result only depends on the
search function inside that bounded region. -/
theorem searchBounds_spec (limit threshold : ℚ)
    (embedApi : List String → Except String (List (List ℚ)))
    (searchApi₁ searchApi₂ : List ℚ → ℚ → ℚ → Except String (List QdrantScoredPoint))
    (query : String)
    (hAgree : ∀ v l t, l ≤ 20 → (3 / 10 : ℚ) ≤ t → searchApi₁ v l t = searchApi₂ v l t) :
    (boundedSearchArgs limit threshold).1 ≤ 20
    ∧ (3 / 10 : ℚ) ≤ (boundedSearchArgs limit threshold).2
    ∧ searchDocumentsEndpoint embedApi searchApi₁ query limit threshold
        = searchDocumentsEndpoint embedApi searchApi₂ query limit threshold := by
  refine ⟨?_, ?_, ?_⟩
  · show min limit 20 ≤ 20
    exact min_le_right _ _
  · show (3 / 10 : ℚ) ≤ max threshold (3 / 10)
    exact le_max_right _ _
  · unfold searchDocumentsEndpoint searchSimilarDocuments
    cases he : generateSingleEmbedding embedApi query with
    | error e => rfl
    | ok v =>
      unfold searchSimilar
      have hb1 : (boundedSearchArgs limit threshold).1 ≤ 20 := min_le_right _ _
      have hb2 : (3 / 10 : ℚ) ≤ (boundedSearchArgs limit threshold).2 := le_max_right _ _
      dsimp only
      rw [hAgree v _ _ hb1 hb2]

/-- Witness for C6 at limit 50 and threshold 0 with one concrete
search function. -/
theorem searchBounds_spec_witness :
    (boundedSearchArgs 50 0).1 ≤ 20 ∧ (3 / 10 : ℚ) ≤ (boundedSearchArgs 50 0).2
    ∧ searchDocumentsEndpoint stubEmbedOk stubSearchEmpty "q" 50 0
        = searchDocumentsEndpoint stubEmbedOk stubSearchEmpty "q" 50 0 :=
  searchBounds_spec 50 0 stubEmbedOk stubSearchEmpty stubSearchEmpty "q"
    (fun _ _ _ _ _ => rfl)

/-- The InternalServerError produced by the length guard in
upsertDocuments (wrapping the thrown contract-violation Error). -/
def lengthMismatchErr : AppError :=
  AppError.internalServer "Failed to store documents in vector database"
    (some (AppError.jsError "Documents and embeddings arrays must have the same length"))

/-- The rewrapped error indexDocuments surfaces for that violation. -/
def indexMismatchErr : AppError :=
  AppError.internalServer "Failed to index documents" (some lengthMismatchErr)

/-- C4: a chunk/embedding count mismatch makes upsertDocuments fail
before touching the store, and indexDocuments then fails leaving the
vector store contents unchanged; the surfaced error is an internal
server error (500), not a user-facing validation error. -/
theorem indexDocuments_mismatch_spec
    (embedApi : List String → Except String (List (List ℚ)))
    (documents : List DocumentChunk) (embeddings : List (List ℚ)) (store : List QdrantPoint)
    (hlen : documents.length ≠ embeddings.length)
    (hne : documents.length ≠ 0)
    (hbatch : batchEmbeddings embedApi (documents.map (fun d => d.content))
        = Except.ok embeddings) :
    upsertDocuments documents embeddings store = Except.error lengthMismatchErr
    ∧ (indexDocuments embedApi documents store).2 = store
    ∧ (indexDocuments embedApi documents store).1 = Except.error indexMismatchErr
    ∧ isValidationError indexMismatchErr = false
    ∧ indexMismatchErr.statusCode = 500 := by
  have hup : upsertDocuments documents embeddings store = Except.error lengthMismatchErr := by
    unfold upsertDocuments
    rw [if_pos hlen]
    rfl
  refine ⟨hup, ?_, ?_, rfl, rfl⟩
  · simp [indexDocuments, hne, hbatch, hup, indexMismatchErr]
  · simp [indexDocuments, hne, hbatch, hup, indexMismatchErr]

/-- Witness for C4: one document against an empty embedding reply. -/
theorem indexDocuments_mismatch_spec_witness :
    ([sampleChunk] : List DocumentChunk).length ≠ ([] : List (List ℚ)).length
    ∧ ([sampleChunk] : List DocumentChunk).length ≠ 0
    ∧ batchEmbeddings stubEmbedNone (([sampleChunk] : List DocumentChunk).map (fun d => d.content))
        = Except.ok []
    ∧ (upsertDocuments [sampleChunk] [] [] = Except.error lengthMismatchErr
      ∧ (indexDocuments stubEmbedNone [sampleChunk] []).2 = []
      ∧ (indexDocuments stubEmbedNone [sampleChunk] []).1 = Except.error indexMismatchErr
      ∧ isValidationError indexMismatchErr = false
      ∧ indexMismatchErr.statusCode = 500) :=
  ⟨by decide, by decide,
    by simp [batchEmbeddings, generateEmbeddings, embeddingRequest, stubEmbedNone],
    indexDocuments_mismatch_spec stubEmbedNone [sampleChunk] [] []
      (by decide) (by decide)
      (by simp [batchEmbeddings, generateEmbeddings, embeddingRequest, stubEmbedNone])⟩

/-- C2: the user ChatMessage is appended to the session store before
embedding, retrieval or generation run, so a processQuery call that
aborts with an error still leaves the user message recorded: the
history read back afterwards ends with it, with no rollback. -/
theorem processQuery_user_message_recorded
    (embedApi : List String → Except String (List (List ℚ)))
    (searchApi : List ℚ → ℚ → ℚ → Except String (List QdrantScoredPoint))
    (genApi : String → Except String String) (ttlFails : Bool)
    (sessionId userMessage : String) (retrievalLimit similarityThreshold : ℚ)
    (userMessageId assistantMessageId : String) (now nowA : Nat)
    (st : RedisState) (e : AppError)
    (hwf : WFState st)
    (herr : (processQuery embedApi searchApi genApi ttlFails sessionId userMessage
        retrievalLimit similarityThreshold userMessageId assistantMessageId now nowA st).1
      = Except.error e) :
    ({ id := userMessageId, role := Role.user, content := userMessage,
       timestamp := now } : ChatMessage)
      ∈ getChatHistory sessionId (processQuery embedApi searchApi genApi ttlFails sessionId
          userMessage retrievalLimit similarityThreshold userMessageId assistantMessageId
          now nowA st).2
    ∧ (getChatHistory sessionId (processQuery embedApi searchApi genApi ttlFails sessionId
          userMessage retrievalLimit similarityThreshold userMessageId assistantMessageId
          now nowA st).2).getLast?
        = some ({ id := userMessageId, role := Role.user, content := userMessage,
                  timestamp := now } : ChatMessage) := by
  have hhist := getChatHistory_addMessage hwf sessionId
    ({ id := userMessageId, role := Role.user, content := userMessage,
       timestamp := now } : ChatMessage) now
  simp only [processQuery] at herr ⊢
  cases h1 : generateSingleEmbedding embedApi userMessage with
  | error e1 =>
    simp only [h1]
    rw [hhist]
    constructor
    · simp
    · exact List.getLast?_concat _
  | ok qe =>
    cases h2 : searchSimilar searchApi qe retrievalLimit similarityThreshold with
    | error e2 =>
      simp only [h1, h2]
      rw [hhist]
      constructor
      · simp
      · exact List.getLast?_concat _
    | ok srs =>
      cases h3 : generateResponse genApi userMessage
          (srs.map (fun r => { r.payload with score := some r.score }))
          (jsSliceLast 10 (messagesOrEmpty (getSession sessionId
            (addMessageToSession sessionId
              { id := userMessageId, role := Role.user, content := userMessage,
                timestamp := now } now st)))) with
      | error e3 =>
        simp only [h1, h2, h3]
        rw [hhist]
        constructor
        · simp
        · exact List.getLast?_concat _
      | ok responseText =>
        simp only [h1, h2, h3] at herr
        exact absurd herr (by simp)

/-- Witness for C2: a failing generation provider on the empty store
still leaves the user message as the recorded history. -/
theorem processQuery_user_message_recorded_witness :
    WFState ([] : RedisState)
    ∧ (processQuery stubEmbedOk stubSearchEmpty stubGenFail false "s1" "What is AI?"
        5 (7 / 10) "u1" "a1" 0 1 []).1
      = Except.error (AppError.internalServer "Failed to process chat query"
          (some (AppError.externalService "Gemini API" "model unavailable"
            (some (AppError.jsError "model unavailable")))))
    ∧ ({ id := "u1", role := Role.user, content := "What is AI?",
         timestamp := 0 } : ChatMessage)
        ∈ getChatHistory "s1" (processQuery stubEmbedOk stubSearchEmpty stubGenFail false
            "s1" "What is AI?" 5 (7 / 10) "u1" "a1" 0 1 []).2
    ∧ (getChatHistory "s1" (processQuery stubEmbedOk stubSearchEmpty stubGenFail false
          "s1" "What is AI?" 5 (7 / 10) "u1" "a1" 0 1 []).2).getLast?
        = some ({ id := "u1", role := Role.user, content := "What is AI?",
                  timestamp := 0 } : ChatMessage) :=
  ⟨by decide, rfl,
    (processQuery_user_message_recorded stubEmbedOk stubSearchEmpty stubGenFail false
      "s1" "What is AI?" 5 (7 / 10) "u1" "a1" 0 1 [] _ (by decide) rfl).1,
    (processQuery_user_message_recorded stubEmbedOk stubSearchEmpty stubGenFail false
      "s1" "What is AI?" 5 (7 / 10) "u1" "a1" 0 1 [] _ (by decide) rfl).2⟩

/-- C7: whether the TTL refresh fails or not has no effect on the
result of processQuery: the returned value (response or rejection) is
identical, so a TTL-refresh failure never fails the request. -/
theorem processQuery_ttlFailure_immaterial
    (embedApi : List String → Except String (List (List ℚ)))
    (searchApi : List ℚ → ℚ → ℚ → Except String (List QdrantScoredPoint))
    (genApi : String → Except String String)
    (sessionId userMessage : String) (retrievalLimit similarityThreshold : ℚ)
    (userMessageId assistantMessageId : String) (now nowA : Nat) (st : RedisState) :
    (processQuery embedApi searchApi genApi true sessionId userMessage
        retrievalLimit similarityThreshold userMessageId assistantMessageId now nowA st).1
      = (processQuery embedApi searchApi genApi false sessionId userMessage
          retrievalLimit similarityThreshold userMessageId assistantMessageId now nowA st).1 := by
  simp only [processQuery]
  cases h1 : generateSingleEmbedding embedApi userMessage with
  | error e1 => simp only [h1]
  | ok qe =>
    cases h2 : searchSimilar searchApi qe retrievalLimit similarityThreshold with
    | error e2 => simp only [h1, h2]
    | ok srs =>
      cases h3 : generateResponse genApi userMessage
          (srs.map (fun r => { r.payload with score := some r.score }))
          (jsSliceLast 10 (messagesOrEmpty (getSession sessionId
            (addMessageToSession sessionId
              { id := userMessageId, role := Role.user, content := userMessage,
                timestamp := now } now st)))) with
      | error e3 => simp only [h1, h2, h3]
      | ok responseText => simp only [h1, h2, h3]

/-- The error generateResponse raises for an empty or all-whitespace
completion (the thrown Error wrapped as an ExternalServiceError). -/
def emptyCompletionErr : AppError :=
  AppError.externalService "Gemini API" "Empty response from Gemini API"
    (some (AppError.jsError "Empty response from Gemini API"))

/-- C1 counterexample: with the generation provider returning the
empty string (embedding and search succeeding), processQuery does
reject, but not with an ExternalServiceError: the rejection is the
InternalServerError wrapper from the catch block of processQuery,
which merely carries the provider ExternalServiceError as details. -/
theorem processQuery_empty_completion_cex :
    rejectsWithExternalService (processQuery stubEmbedOk stubSearchEmpty stubGenEmpty false
      "s1" "What is AI?" 5 (7 / 10) "u1" "a1" 0 1 []).1 = false
    ∧ (processQuery stubEmbedOk stubSearchEmpty stubGenEmpty false
        "s1" "What is AI?" 5 (7 / 10) "u1" "a1" 0 1 []).1
      = Except.error (AppError.internalServer "Failed to process chat query"
          (some emptyCompletionErr)) :=
  ⟨rfl, rfl⟩

/-- C1 (amended): an empty or all-whitespace completion is treated as
a failure, raised by the LLM layer as an ExternalServiceError for the
Gemini provider; processQuery rejects for every session and user
message, with an InternalServerError that wraps that provider error. -/
theorem processQuery_empty_completion_spec
    (embedApi : List String → Except String (List (List ℚ)))
    (searchApi : List ℚ → ℚ → ℚ → Except String (List QdrantScoredPoint))
    (genApi : String → Except String String) (s : String) (ttlFails : Bool)
    (sessionId userMessage : String) (retrievalLimit similarityThreshold : ℚ)
    (userMessageId assistantMessageId : String) (now nowA : Nat) (st : RedisState)
    (hembed : ∀ ts, ∃ es, embedApi ts = Except.ok es)
    (hsearch : ∀ v l t, ∃ ps, searchApi v l t = Except.ok ps)
    (hgen : ∀ p, genApi p = Except.ok s)
    (hs : (jsTrim s).length = 0) :
    (processQuery embedApi searchApi genApi ttlFails sessionId userMessage
        retrievalLimit similarityThreshold userMessageId assistantMessageId now nowA st).1
      = Except.error (AppError.internalServer "Failed to process chat query"
          (some emptyCompletionErr))
    ∧ rejectsWithExternalService (processQuery embedApi searchApi genApi ttlFails sessionId
        userMessage retrievalLimit similarityThreshold userMessageId assistantMessageId
        now nowA st).1 = false := by
  obtain ⟨es, he⟩ := hembed (embeddingRequest [userMessage])
  have h1 : generateSingleEmbedding embedApi userMessage = Except.ok (es.headD []) := by
    unfold generateSingleEmbedding generateEmbeddings
    rw [if_neg (by simp), he]
  obtain ⟨ps, hp⟩ := hsearch (es.headD []) retrievalLimit similarityThreshold
  have h2 : searchSimilar searchApi (es.headD []) retrievalLimit similarityThreshold
      = Except.ok (ps.map normalizePoint) := by
    unfold searchSimilar
    rw [hp]
  have h3 : ∀ (q : String) (cs : List DocumentChunk) (hist : List ChatMessage),
      generateResponse genApi q cs hist = Except.error emptyCompletionErr := by
    intro q cs hist
    unfold generateResponse
    rw [hgen]
    dsimp only
    rw [if_pos hs]
    rfl
  have hmain : (processQuery embedApi searchApi genApi ttlFails sessionId userMessage
      retrievalLimit similarityThreshold userMessageId assistantMessageId now nowA st).1
      = Except.error (AppError.internalServer "Failed to process chat query"
          (some emptyCompletionErr)) := by
    simp only [processQuery, h1, h2, h3]
  refine ⟨hmain, ?_⟩
  rw [hmain]
  rfl

/-- Witness for the amended C1 at concrete stub providers. -/
theorem processQuery_empty_completion_spec_witness :
    (jsTrim "").length = 0
    ∧ ((processQuery stubEmbedOk stubSearchEmpty stubGenEmpty true
          "s2" "Tell me about AI" 5 (7 / 10) "u2" "a2" 3 4 stateS1).1
        = Except.error (AppError.internalServer "Failed to process chat query"
            (some emptyCompletionErr))
      ∧ rejectsWithExternalService (processQuery stubEmbedOk stubSearchEmpty stubGenEmpty true
          "s2" "Tell me about AI" 5 (7 / 10) "u2" "a2" 3 4 stateS1).1 = false) :=
  ⟨rfl,
    processQuery_empty_completion_spec stubEmbedOk stubSearchEmpty stubGenEmpty "" true
      "s2" "Tell me about AI" 5 (7 / 10) "u2" "a2" 3 4 stateS1
      (fun ts => ⟨ts.map (fun _ => [1]), rfl⟩)
      (fun _ _ _ => ⟨[], rfl⟩)
      (fun _ => rfl) rfl⟩
